import Mathlib

/-!
Shallow embedding of `pkg/store/api.go` of the oklog store node: the HTTP
request router (`ServeHTTP`), the user-facing scatter-gather query handler
(`handleUserQuery`), the internal query handler, the two stream handlers, the
replication ingestion handler (`handleReplicate`), and the cluster-state
handler.

External collaborators (the local `Log`, `mergeRecords`, the peer directory,
the HTTP client) are abstracted as explicit environment records holding the
results they would produce during one request; the handlers' own control flow
is translated statement by statement from the Go source. Query-parameter
parsing/encoding and `QueryResult.Merge` live in other files of the repository
that are not among the sources, so they are modelled from the spec (each such
definition is marked in its doc comment).
-/

namespace OkLogStore

/-! ## Paths (api.go:23-30) -/

def APIPathUserQuery : String := "/query"

def APIPathInternalQuery : String := "/_query"

def APIPathUserStream : String := "/stream"

def APIPathInternalStream : String := "/_stream"

def APIPathReplicate : String := "/replicate"

def APIPathClusterState : String := "/_clusterstate"

/-! ## Data model -/

/-- Modelled from the spec: `QueryParams` (pkg/store/query.go, not among the
sources) is an immutable, URL-query-encodable value describing a log query.
Its internal shape is irrelevant to the handlers; we carry one abstract
string payload `q`. -/
structure QueryParams where
  q : String
deriving DecidableEq, Repr

/-- Modelled from the spec: `QueryResult` (pkg/store/query.go, not among the
sources) carries the originating params, the count of peers that failed to
answer (`ErrorCount`), and the matched totals. The elapsed-duration string and
the record payload do not participate in any claim and are elided. -/
structure QueryResult where
  params : QueryParams
  errorCount : Nat
  recordsMatched : Nat
deriving DecidableEq, Repr

/-- Modelled from the spec: `QueryResult.Merge` (pkg/store/query.go, not among
the sources) folds a partial result into the aggregate; it fails if the
partial is structurally incompatible with the aggregate (mismatched params),
and otherwise sums the error counts and the matched totals. -/
def QueryResult.merge (a b : QueryResult) : Except String QueryResult :=
  if b.params = a.params then
    .ok { params := a.params
          errorCount := a.errorCount + b.errorCount
          recordsMatched := a.recordsMatched + b.recordsMatched }
  else
    .error "params mismatch"

/-- The reply a handler writes on the response writer: `http.Error` with a
status code and message, a redirect (`http.Redirect`), an encoded
`QueryResult` body, a plain text body (`fmt.Fprintln`, status stays 200), a
streamed body (records written and flushed until cancellation, status stays
200), or a cluster-state JSON body. -/
inductive Reply
  | httpError (code : Nat) (msg : String)
  | redirect (code : Nat) (location : String)
  | queryResult (r : QueryResult)
  | text (body : String)
  | streamed
  | clusterState (json : String)
deriving DecidableEq, Repr

/-- The final HTTP status of a reply as captured by the intercepting writer:
`http.Error` and `http.Redirect` call `WriteHeader` with their code; every
other reply only calls `Write`, so the intercepted code keeps its default 200
(api.go:64, api.go:100-108). -/
def Reply.status : Reply → Nat
  | .httpError code _ => code
  | .redirect code _ => code
  | .queryResult _ => 200
  | .text _ => 200
  | .streamed => 200
  | .clusterState _ => 200

/-! ## Replication ingestion (api.go:294-318) -/

/-- Everything `handleReplicate` reads from its collaborators during one
request: the result of `a.log.Create()` (api.go:296), the result of
`mergeRecords(segment, r.Body)` (api.go:301) as `(low, high, n)` or an error,
and the result of `segment.Close(low, high)` (api.go:311), where `some e`
means `Close` returned the error `e`. -/
structure ReplicateEnv where
  createResult : Except String Unit
  mergeResult : Except String (Nat × Nat × Nat)
  closeResult : Nat → Nat → Option String

/-- The observable outcome of one `handleReplicate` call: the reply written,
whether `segment.Delete()` was called, the `(low, high)` arguments of the
`segment.Close` call if one happened, whether that `Close` succeeded (the
segment is committed), and the amounts added to the `replicatedSegments` and
`replicatedBytes` counters. -/
structure ReplicateOutcome where
  reply : Reply
  deleted : Bool
  closeCalled : Option (Nat × Nat)
  committed : Bool
  segmentsInc : Nat
  bytesInc : Nat
deriving DecidableEq, Repr

/-- `handleReplicate` (api.go:294-318), translated branch by branch:
create the segment (500 on failure, nothing else happens); run
`mergeRecords` (on error: `Delete` then 500); if `n == 0`: `Delete` then
write "No records"; otherwise `Close(low, high)` (500 on failure, no delete,
counters untouched); on success increment the counters by 1 and `n` and
write "OK". -/
def handleReplicate (env : ReplicateEnv) : ReplicateOutcome :=
  match env.createResult with
  | .error e =>
      { reply := .httpError 500 e, deleted := false, closeCalled := none
        committed := false, segmentsInc := 0, bytesInc := 0 }
  | .ok _ =>
      match env.mergeResult with
      | .error e =>
          { reply := .httpError 500 e, deleted := true, closeCalled := none
            committed := false, segmentsInc := 0, bytesInc := 0 }
      | .ok (low, high, n) =>
          if n = 0 then
            { reply := .text "No records", deleted := true, closeCalled := none
              committed := false, segmentsInc := 0, bytesInc := 0 }
          else
            match env.closeResult low high with
            | some e =>
                { reply := .httpError 500 e, deleted := false
                  closeCalled := some (low, high), committed := false
                  segmentsInc := 0, bytesInc := 0 }
            | none =>
                { reply := .text "OK", deleted := false
                  closeCalled := some (low, high), committed := true
                  segmentsInc := 1, bytesInc := n }

/-! ## User-facing scatter-gather query (api.go:110-198) -/

/-- The outcome of one dispatched peer request, as observed at the gather loop
(api.go:169-195): either a transport error (`response.err != nil`,
api.go:170), or a response with its status code and, when the loop consults
it, the partial `QueryResult` that `partialResult.DecodeFrom(response.resp)`
(api.go:189) yields. The loop checks the status against 200
(`http.StatusOK`, api.go:175) and decodes only 200 responses. -/
inductive PeerOutcome
  | transportErr (e : String)
  | resp (code : Nat) (partialResult : QueryResult)
deriving DecidableEq, Repr

/-- An outcome the gather loop counts into `ErrorCount`: a transport error or
a non-200 status (api.go:170-187). -/
def PeerOutcome.isFailure : PeerOutcome → Bool
  | .transportErr _ => true
  | .resp code _ => code ≠ 200

/-- The partial result of a successful (status 200) outcome, if any. -/
def PeerOutcome.successResult : PeerOutcome → Option QueryResult
  | .transportErr _ => none
  | .resp code r => if code = 200 then some r else none

/-- One iteration of the gather loop body (api.go:169-195): a transport error
or a non-200 status increments `ErrorCount` and continues; a 200 response is
decoded and folded into the aggregate via `Merge`, whose failure aborts. -/
def gatherStep (acc : QueryResult) (o : PeerOutcome) : Except String QueryResult :=
  match o with
  | .transportErr _ => .ok { acc with errorCount := acc.errorCount + 1 }
  | .resp code partialResult =>
      if code ≠ 200 then .ok { acc with errorCount := acc.errorCount + 1 }
      else acc.merge partialResult

/-- The gather loop (api.go:169-195) over the responses in arrival order,
threading the mutable aggregate `result`; the first `Merge` failure aborts
the whole loop with that error. -/
def gather (acc : QueryResult) : List PeerOutcome → Except String QueryResult
  | [] => .ok acc
  | o :: rest =>
      match gatherStep acc o with
      | .error e => .error e
      | .ok next => gather next rest

/-- Everything `handleUserQuery` reads from its collaborators during one
request: the peer snapshot `a.peer.Current(cluster.PeerTypeStore)`
(api.go:113); the result of `MakeQueryParams(r.URL.Query())` (api.go:120,
parser in query.go, not among the sources); per-hostport failure of
`url.Parse`/`http.NewRequest` while building the fan-out requests
(api.go:133-145), `some e` meaning the build failed with message `e`; and
the outcomes read from the rendezvous channel, one per dispatched request,
in their nondeterministic arrival order (api.go:153-165). -/
structure UserQueryEnv where
  members : List String
  paramsResult : Except String QueryParams
  buildErr : String → Option String
  outcomes : List PeerOutcome

/-- The observable outcome of one `handleUserQuery` call: the reply written
and the number of peer requests dispatched (goroutines started at
api.go:154-160; zero when the handler returns before the dispatch loop). -/
structure UserQueryOutcome where
  reply : Reply
  dispatched : Nat
deriving DecidableEq, Repr

/-- `handleUserQuery` (api.go:110-198), translated branch by branch: 503 when
the peer snapshot is empty (api.go:114-118); 400 when `MakeQueryParams`
fails (api.go:120-124); one request built per member, aborting with 500 at
the first build failure (api.go:131-147); then all requests dispatched
concurrently, every outcome awaited, and the outcomes folded by the gather
loop, whose `Merge` failure aborts with 500 wrapped as "merging results"
(api.go:149-195); otherwise the aggregate result is encoded to the client
(api.go:196-197). The elapsed-duration stamp (api.go:196) is elided. -/
def handleUserQuery (env : UserQueryEnv) : UserQueryOutcome :=
  if env.members.length ≤ 0 then
    { reply := .httpError 503 "no store nodes available", dispatched := 0 }
  else
    match env.paramsResult with
    | .error e => { reply := .httpError 400 e, dispatched := 0 }
    | .ok query =>
        match env.members.find? (fun m => (env.buildErr m).isSome) with
        | some m =>
            { reply := .httpError 500 ((env.buildErr m).getD "")
              dispatched := 0 }
        | none =>
            let init : QueryResult :=
              { params := query, errorCount := 0, recordsMatched := 0 }
            match gather init env.outcomes with
            | .error e =>
                { reply := .httpError 500 ("merging results: " ++ e)
                  dispatched := env.members.length }
            | .ok result =>
                { reply := .queryResult result, dispatched := env.members.length }

/-! ## Internal query (api.go:200-214) -/

/-- Everything `handleInternalQuery` reads: the result of `MakeQueryParams`
(api.go:201) and the result of `a.log.Query(query, statsOnly)` (api.go:207). -/
structure InternalQueryEnv where
  paramsResult : Except String QueryParams
  logQuery : QueryParams → Except String QueryResult

/-- `handleInternalQuery` (api.go:200-214): 400 on a parameter parse failure,
500 on a local query failure, otherwise the local result is encoded. -/
def handleInternalQuery (env : InternalQueryEnv) : Reply :=
  match env.paramsResult with
  | .error e => .httpError 400 e
  | .ok query =>
      match env.logQuery query with
      | .error e => .httpError 500 e
      | .ok result => .queryResult result

/-! ## Response writers and the flusher capability -/

/-- The capability of a concrete `http.ResponseWriter` value that matters to
the stream handlers: whether its dynamic type satisfies `http.Flusher`
(has a `Flush()` method). -/
structure ResponseWriter where
  supportsFlusher : Bool
deriving DecidableEq, Repr

/-- The wrapping `ServeHTTP` performs at api.go:64-65:
`iw := &interceptingWriter{http.StatusOK, w}; w = iw`. In Go,
`interceptingWriter` (api.go:100-103) embeds the interface type
`http.ResponseWriter`, so the wrapper's method set holds only that
interface's methods (`Header`, `Write`, `WriteHeader`) plus its own
`WriteHeader`; `Flush` is not among them, so a type assertion of the wrapper
to `http.Flusher` fails regardless of the underlying writer's dynamic type. -/
def interceptingWriterWrap (_w : ResponseWriter) : ResponseWriter :=
  { supportsFlusher := false }

/-! ## Stream handlers (api.go:216-292) -/

/-- Everything a stream handler reads that matters to its reply: the result
of `MakeQueryParams` (api.go:217, api.go:264). The peer factory, reader
factory and the record channel only affect the streamed bytes, not the
reply shape. -/
structure StreamEnv where
  paramsResult : Except String QueryParams

/-- `handleUserStream` (api.go:216-261): 400 on a parameter parse failure;
then `flusher, ok := w.(http.Flusher)` — when the writer it received does not
satisfy `http.Flusher`, 412 "can't stream to your client" (api.go:223-227);
otherwise the handler streams records until cancellation. -/
def handleUserStream (w : ResponseWriter) (env : StreamEnv) : Reply :=
  match env.paramsResult with
  | .error e => .httpError 400 e
  | .ok _ =>
      if w.supportsFlusher then .streamed
      else .httpError 412 "can't stream to your client"

/-- `handleInternalStream` (api.go:263-292): the same parameter check and
flusher assertion (api.go:264-274), then records are streamed from the local
log until cancellation. (The `if err != nil` at api.go:277 re-tests the
parameter error, which is nil on every path that reaches it.) -/
def handleInternalStream (w : ResponseWriter) (env : StreamEnv) : Reply :=
  match env.paramsResult with
  | .error e => .httpError 400 e
  | .ok _ =>
      if w.supportsFlusher then .streamed
      else .httpError 412 "can't stream to your client"

/-! ## Cluster state (api.go:320-328) -/

/-- `handleClusterState` (api.go:320-328): 500 when marshalling the
membership state fails, otherwise the JSON body is written. -/
def handleClusterState (marshalResult : Except String String) : Reply :=
  match marshalResult with
  | .error e => .httpError 500 e
  | .ok json => .clusterState json

/-! ## The router and the latency observation (api.go:63-108) -/

/-- An inbound request as the router inspects it: method and URL path. -/
structure Request where
  method : String
  path : String
deriving DecidableEq, Repr

/-- Environments for every handler the router can reach, bundled per
request. -/
structure ServeEnv where
  userQuery : UserQueryEnv
  internalQuery : InternalQueryEnv
  userStream : StreamEnv
  internalStream : StreamEnv
  replicate : ReplicateEnv
  clusterMarshal : Except String String

/-- The observable outcome of one `ServeHTTP` call: the reply written and the
`(method, path, status)` label triples observed on the `duration` histogram.
The deferred observation (api.go:66-72) runs exactly once, after the switch,
and reads `r.Method` and `r.URL.Path` at that moment — so the root redirect's
path rewrite `r.URL.Path = APIPathUserQuery` (api.go:77) is visible to it —
and reads the intercepted status code, which `WriteHeader` (api.go:105-108)
captured, or which stays at its initial `http.StatusOK` when no handler
called `WriteHeader` (api.go:64). -/
structure ServeOutcome where
  reply : Reply
  observations : List (String × String × Nat)
deriving DecidableEq, Repr

/-- The switch of `ServeHTTP` (api.go:74-97) run against the wrapped writer,
returning the reply together with the value of `r.URL.Path` after the switch
(only the `GET /` case mutates it, api.go:77). -/
def routeRequest (env : ServeEnv) (w : ResponseWriter) (r : Request) :
    Reply × String :=
  if r.method = "GET" ∧ r.path = "/" then
    (.redirect 307 APIPathUserQuery, APIPathUserQuery)
  else if r.method = "GET" ∧ r.path = APIPathUserQuery then
    ((handleUserQuery env.userQuery).reply, r.path)
  else if r.method = "HEAD" ∧ r.path = APIPathUserQuery then
    ((handleUserQuery env.userQuery).reply, r.path)
  else if r.method = "GET" ∧ r.path = APIPathInternalQuery then
    (handleInternalQuery env.internalQuery, r.path)
  else if r.method = "HEAD" ∧ r.path = APIPathInternalQuery then
    (handleInternalQuery env.internalQuery, r.path)
  else if r.method = "GET" ∧ r.path = APIPathUserStream then
    (handleUserStream w env.userStream, r.path)
  else if r.method = "GET" ∧ r.path = APIPathInternalStream then
    (handleInternalStream w env.internalStream, r.path)
  else if r.method = "POST" ∧ r.path = APIPathReplicate then
    ((handleReplicate env.replicate).reply, r.path)
  else if r.method = "GET" ∧ r.path = APIPathClusterState then
    (handleClusterState env.clusterMarshal, r.path)
  else
    (.httpError 404 "404 page not found", r.path)

/-- `ServeHTTP` (api.go:63-98): wrap the writer in an `interceptingWriter`
with initial code 200, dispatch by method and path, and record exactly one
duration observation labeled with the method, the (possibly rewritten) path
and the final intercepted status code. -/
def serveHTTP (env : ServeEnv) (w : ResponseWriter) (r : Request) :
    ServeOutcome :=
  let iw := interceptingWriterWrap w
  let routed := routeRequest env iw r
  { reply := routed.1
    observations := [(r.method, routed.2, routed.1.status)] }

/-! ## Fan-out URL construction (api.go:133-139, api.go:233-239) -/

/-- Split one `key=value` chunk of a raw query string, as Go's
`url.ParseQuery` does for the simple un-escaped values at issue here. -/
def parseKV (kv : String) : String × String :=
  match kv.splitOn "=" with
  | [] => ("", "")
  | [k] => (k, "")
  | k :: v :: _ => (k, v)

/-- Parse a raw query string into `url.Values` pairs; the empty raw query
parses to no pairs. -/
def parseValues (s : String) : List (String × String) :=
  if s = "" then [] else (s.splitOn "&").map parseKV

/-- Go `*url.URL` as the handlers use it: `String()` reassembles the URL from
the stored fields, and `Query()` parses `RawQuery` into a fresh `url.Values`
value on every call — the returned map is not connected to the URL. -/
structure GoURL where
  base : String
  rawQuery : String
deriving DecidableEq, Repr

/-- Go `u.Query()`: a fresh parse of `u.RawQuery`. -/
def GoURL.queryValues (u : GoURL) : List (String × String) :=
  parseValues u.rawQuery

/-- Go `u.String()`: the URL reassembled from its fields; the query part
comes from `RawQuery` alone. -/
def GoURL.render (u : GoURL) : String :=
  if u.rawQuery = "" then u.base else u.base ++ "?" ++ u.rawQuery

/-- Modelled from the spec: `QueryParams.EncodeTo` (pkg/store/query.go, not
among the sources) writes the URL-encoding of the params into the given
`url.Values`, mutating it in place; modelled functionally as returning the
updated copy. It sets the params' keys, here the abstract key "q". -/
def EncodeTo (query : QueryParams) (values : List (String × String)) :
    List (String × String) :=
  values.filter (fun p => p.1 != "q") ++ [("q", query.q)]

/-- Modelled from the spec: `MakeQueryParams` (pkg/store/query.go, not among
the sources) decodes URL query values into a `QueryParams`; an absent key
decodes to the default (empty) value, and decoding the encoded form of any
params yields those params back (round-trip invariant, spec section 8). -/
def MakeQueryParamsOf (values : List (String × String)) : QueryParams :=
  { q := ((values.find? (fun p => p.1 == "q")).map Prod.snd).getD "" }

/-- Building one fan-out request URL (api.go:133-139; the same pattern at
api.go:233-239): `url.Parse(fmt.Sprintf("http://%s/store%s", hostport, path))`
yields a URL whose `RawQuery` is empty (the format string contains no query
part); `query.EncodeTo(u.Query())` receives the fresh copy that `u.Query()`
parses out of `u.RawQuery`, and mutating that copy writes nothing back into
`u`; the request is then built from `u.String()`, which reassembles the
query part from `u.RawQuery` alone — so the URL the request carries is `u`
unchanged. -/
def buildInternalURL (hostport path : String) (query : QueryParams) : GoURL :=
  let u : GoURL :=
    { base := "http://" ++ hostport ++ "/store" ++ path, rawQuery := "" }
  let _discardedCopy := EncodeTo query u.queryValues
  u

/-! ## Concrete environments used as witnesses and counterexamples -/

/-- The path the deferred duration observation reads (api.go:66-72): it runs
after the switch, so it sees the request path except for `GET /`, which the
redirect case rewrote to `/query` (api.go:77) before the observation. -/
def observedPath (r : Request) : String :=
  if r.method = "GET" ∧ r.path = "/" then APIPathUserQuery else r.path

/-- A replication environment whose body fails to decode midway. -/
def replicateFailEnv : ReplicateEnv :=
  { createResult := .ok ()
    mergeResult := .error "short read"
    closeResult := fun _ _ => none }

/-- A replication environment whose body holds zero records. -/
def replicateEmptyEnv : ReplicateEnv :=
  { createResult := .ok ()
    mergeResult := .ok (0, 0, 0)
    closeResult := fun _ _ => none }

/-- A replication environment with three records spanning keys 5 to 9 whose
commit succeeds. -/
def replicateOkEnv : ReplicateEnv :=
  { createResult := .ok ()
    mergeResult := .ok (5, 9, 3)
    closeResult := fun _ _ => none }

/-- A local result with the given matched total for the default params. -/
def sampleResult (matched : Nat) : QueryResult :=
  { params := { q := "error" }
    errorCount := 0
    recordsMatched := matched }

/-- A user-query environment with three peers: one transport error, one 503
response, one success carrying 7 matched records. -/
def sampleGatherEnv : UserQueryEnv :=
  { members := ["10.0.0.1:7650", "10.0.0.2:7650", "10.0.0.3:7650"]
    paramsResult := .ok { q := "error" }
    buildErr := fun _ => none
    outcomes := [.transportErr "connection refused", .resp 503 (sampleResult 0),
      .resp 200 (sampleResult 7)] }

/-- A user-query environment whose peer snapshot is empty and whose query
parameters are malformed. -/
def emptyDirectoryEnv : UserQueryEnv :=
  { members := []
    paramsResult := .error "parsing from: bad time"
    buildErr := fun _ => none
    outcomes := [] }

/-- A user-query environment with one peer whose successful partial result
carries params different from the client's: its merge must fail. -/
def incompatGatherEnv : UserQueryEnv :=
  { members := ["10.0.0.1:7650"]
    paramsResult := .ok { q := "error" }
    buildErr := fun _ => none
    outcomes := [.resp 200 { params := { q := "other" }, errorCount := 0, recordsMatched := 1 }] }

/-- A full router environment with benign collaborator results on every
route. -/
def sampleServeEnv : ServeEnv :=
  { userQuery := sampleGatherEnv
    internalQuery :=
      { paramsResult := .ok { q := "error" }
        logQuery := fun p => .ok { params := p, errorCount := 0, recordsMatched := 0 } }
    userStream := { paramsResult := .ok { q := "error" } }
    internalStream := { paramsResult := .ok { q := "error" } }
    replicate := replicateOkEnv
    clusterMarshal := .ok "\x7b\x7d" }

/-! ## Supporting lemmas -/

theorem successResult_transportErr (e : String) :
    PeerOutcome.successResult (.transportErr e) = none := rfl

theorem successResult_resp_200 (r : QueryResult) :
    PeerOutcome.successResult (.resp 200 r) = some r := rfl

theorem successResult_resp_ne (code : Nat) (r : QueryResult) (h : code ≠ 200) :
    PeerOutcome.successResult (.resp code r) = none := by
  simp [PeerOutcome.successResult, h]

theorem isFailure_transportErr (e : String) :
    PeerOutcome.isFailure (.transportErr e) = true := rfl

theorem isFailure_resp_200 (r : QueryResult) :
    PeerOutcome.isFailure (.resp 200 r) = false := by
  simp [PeerOutcome.isFailure]

theorem isFailure_resp_ne (code : Nat) (r : QueryResult) (h : code ≠ 200) :
    PeerOutcome.isFailure (.resp code r) = true := by
  simp [PeerOutcome.isFailure, h]

/-- The gather loop, run from an aggregate whose params are `query`, succeeds
whenever every successful partial result carries those same params, and its
aggregate adds one error per failed outcome, the partial error counts, and
the partial matched totals. -/
theorem gather_ok_of_compat (query : QueryParams) (outcomes : List PeerOutcome) :
    ∀ acc : QueryResult, acc.params = query →
      (∀ r ∈ outcomes.filterMap PeerOutcome.successResult, r.params = query) →
      gather acc outcomes = .ok
        { params := query
          errorCount := acc.errorCount
            + (outcomes.filter PeerOutcome.isFailure).length
            + ((outcomes.filterMap PeerOutcome.successResult).map
                QueryResult.errorCount).sum
          recordsMatched := acc.recordsMatched
            + ((outcomes.filterMap PeerOutcome.successResult).map
                QueryResult.recordsMatched).sum } := by
  induction outcomes with
  | nil =>
      intro acc hacc _
      cases acc
      simp_all [gather]
  | cons o rest ih =>
      intro acc hacc hcompat
      cases o with
      | transportErr e =>
          rw [List.filterMap_cons_none (successResult_transportErr e)] at hcompat ⊢
          rw [List.filter_cons_of_pos (by exact isFailure_transportErr e)]
          have step := ih { acc with errorCount := acc.errorCount + 1 } hacc hcompat
          simp only [gather, gatherStep, step]
          simp [Except.ok.injEq, QueryResult.mk.injEq]
          all_goals omega
      | resp code r =>
          by_cases hcode : code = 200
          · subst hcode
            rw [List.filterMap_cons_some (successResult_resp_200 r)] at hcompat ⊢
            rw [List.filter_cons_of_neg (by simp [isFailure_resp_200])]
            have hrq : r.params = query := hcompat r (List.mem_cons_self r _)
            have hrest : ∀ x ∈ rest.filterMap PeerOutcome.successResult,
                x.params = query :=
              fun x hx => hcompat x (List.mem_cons_of_mem r hx)
            have hmerge : acc.merge r = .ok
                { params := acc.params
                  errorCount := acc.errorCount + r.errorCount
                  recordsMatched := acc.recordsMatched + r.recordsMatched } := by
              simp [QueryResult.merge, hacc, hrq]
            have step := ih
              { params := acc.params
                errorCount := acc.errorCount + r.errorCount
                recordsMatched := acc.recordsMatched + r.recordsMatched }
              hacc hrest
            simp only [gather, gatherStep, if_neg (by simp : ¬ (200 : Nat) ≠ 200),
              hmerge, step]
            simp [Except.ok.injEq, QueryResult.mk.injEq]
            all_goals omega
          · rw [List.filterMap_cons_none (successResult_resp_ne code r hcode)]
              at hcompat ⊢
            rw [List.filter_cons_of_pos (by exact isFailure_resp_ne code r hcode)]
            have step := ih { acc with errorCount := acc.errorCount + 1 } hacc hcompat
            simp only [gather, gatherStep, if_pos hcode, step]
            simp [Except.ok.injEq, QueryResult.mk.injEq]
            all_goals omega

/-- The gather loop aborts with an error whenever some successful partial
result carries params different from the aggregate's. -/
theorem gather_error_of_incompat (query : QueryParams) (outcomes : List PeerOutcome) :
    ∀ acc : QueryResult, acc.params = query →
      (∃ r ∈ outcomes.filterMap PeerOutcome.successResult, r.params ≠ query) →
      ∃ e, gather acc outcomes = .error e := by
  induction outcomes with
  | nil =>
      intro acc _ hbad
      simp at hbad
  | cons o rest ih =>
      intro acc hacc hbad
      cases o with
      | transportErr e =>
          rw [List.filterMap_cons_none (successResult_transportErr e)] at hbad
          obtain ⟨e2, he2⟩ :=
            ih { acc with errorCount := acc.errorCount + 1 } hacc hbad
          exact ⟨e2, by simp only [gather, gatherStep, he2]⟩
      | resp code r =>
          by_cases hcode : code = 200
          · subst hcode
            by_cases hrq : r.params = query
            · rw [List.filterMap_cons_some (successResult_resp_200 r)] at hbad
              have hbad2 : ∃ x ∈ rest.filterMap PeerOutcome.successResult,
                  x.params ≠ query := by
                rcases hbad with ⟨x, hx, hxq⟩
                rcases List.mem_cons.mp hx with hx | hx
                · exact absurd (hx ▸ hrq) hxq
                · exact ⟨x, hx, hxq⟩
              have hmerge : acc.merge r = .ok
                  { params := acc.params
                    errorCount := acc.errorCount + r.errorCount
                    recordsMatched := acc.recordsMatched + r.recordsMatched } := by
                simp [QueryResult.merge, hacc, hrq]
              obtain ⟨e2, he2⟩ := ih
                { params := acc.params
                  errorCount := acc.errorCount + r.errorCount
                  recordsMatched := acc.recordsMatched + r.recordsMatched }
                hacc hbad2
              refine ⟨e2, ?_⟩
              simp only [gather, gatherStep, if_neg (by simp : ¬ (200 : Nat) ≠ 200),
                hmerge, he2]
            · refine ⟨"params mismatch", ?_⟩
              have hmerge : acc.merge r = .error "params mismatch" := by
                simp [QueryResult.merge, hacc, hrq]
              simp only [gather, gatherStep, if_neg (by simp : ¬ (200 : Nat) ≠ 200),
                hmerge]
          · rw [List.filterMap_cons_none (successResult_resp_ne code r hcode)] at hbad
            obtain ⟨e2, he2⟩ :=
              ih { acc with errorCount := acc.errorCount + 1 } hacc hbad
            exact ⟨e2, by simp only [gather, gatherStep, if_pos hcode, he2]⟩

/-! ## Claim theorems: replication ingestion -/

/-- C1: Replication ingestion is atomic on failure: whenever the segment was
created and decoding/appending (`mergeRecords`) fails, `handleReplicate`
calls `Delete()` on the segment and responds 500, and `Close` is never
called — no partially-written segment is committed. -/
theorem replicate_atomic_on_failure (env : ReplicateEnv) (e : String)
    (hcreate : env.createResult = .ok ())
    (hmerge : env.mergeResult = .error e) :
    (handleReplicate env).reply = .httpError 500 e ∧
    (handleReplicate env).deleted = true ∧
    (handleReplicate env).closeCalled = none ∧
    (handleReplicate env).committed = false := by
  simp [handleReplicate, hcreate, hmerge]

/-- Witness for C1: a concrete environment whose record stream fails to
decode midway. -/
theorem replicate_atomic_on_failure_witness :
    (handleReplicate replicateFailEnv).reply = .httpError 500 "short read" ∧
    (handleReplicate replicateFailEnv).deleted = true ∧
    (handleReplicate replicateFailEnv).closeCalled = none ∧
    (handleReplicate replicateFailEnv).committed = false :=
  replicate_atomic_on_failure replicateFailEnv "short read" rfl rfl

/-- C7: an empty push is an inert no-op: zero records and no decode error
make the handler delete the segment, never call `Close`, reply with the
distinguishing "No records" text at success status 200, and leave both
replication counters unchanged. -/
theorem replicate_empty_push_noop (env : ReplicateEnv) (low high : Nat)
    (hcreate : env.createResult = .ok ())
    (hmerge : env.mergeResult = .ok (low, high, 0)) :
    (handleReplicate env).reply = .text "No records" ∧
    ((handleReplicate env).reply).status = 200 ∧
    (handleReplicate env).deleted = true ∧
    (handleReplicate env).closeCalled = none ∧
    (handleReplicate env).committed = false ∧
    (handleReplicate env).segmentsInc = 0 ∧
    (handleReplicate env).bytesInc = 0 := by
  simp [handleReplicate, hcreate, hmerge, Reply.status]

/-- Witness for C7: a concrete environment whose body holds zero records. -/
theorem replicate_empty_push_noop_witness :
    (handleReplicate replicateEmptyEnv).reply = .text "No records" ∧
    ((handleReplicate replicateEmptyEnv).reply).status = 200 ∧
    (handleReplicate replicateEmptyEnv).deleted = true ∧
    (handleReplicate replicateEmptyEnv).closeCalled = none ∧
    (handleReplicate replicateEmptyEnv).committed = false ∧
    (handleReplicate replicateEmptyEnv).segmentsInc = 0 ∧
    (handleReplicate replicateEmptyEnv).bytesInc = 0 :=
  replicate_empty_push_noop replicateEmptyEnv 0 0 rfl rfl

/-- C8: replication success path: with `n > 0` decoded records, the handler
commits via `Close(low, high)` with the tracked watermarks; if `Close`
succeeds it adds 1 to the segments-replicated counter and `n` to the
bytes-replicated counter and replies "OK"; if `Close` fails it responds 500,
does not delete the segment, and leaves both counters unchanged. -/
theorem replicate_success_path (env : ReplicateEnv) (low high n : Nat)
    (hcreate : env.createResult = .ok ())
    (hmerge : env.mergeResult = .ok (low, high, n))
    (hn : n ≠ 0) :
    (env.closeResult low high = none →
      (handleReplicate env).reply = .text "OK" ∧
      (handleReplicate env).closeCalled = some (low, high) ∧
      (handleReplicate env).committed = true ∧
      (handleReplicate env).deleted = false ∧
      (handleReplicate env).segmentsInc = 1 ∧
      (handleReplicate env).bytesInc = n) ∧
    (∀ e, env.closeResult low high = some e →
      (handleReplicate env).reply = .httpError 500 e ∧
      (handleReplicate env).closeCalled = some (low, high) ∧
      (handleReplicate env).committed = false ∧
      (handleReplicate env).deleted = false ∧
      (handleReplicate env).segmentsInc = 0 ∧
      (handleReplicate env).bytesInc = 0) := by
  constructor
  · intro hclose
    simp [handleReplicate, hcreate, hmerge, hn, hclose]
  · intro e hclose
    simp [handleReplicate, hcreate, hmerge, hn, hclose]

/-- Witness for C8: a concrete environment with three records spanning keys
5 to 9 whose commit succeeds. -/
theorem replicate_success_path_witness :
    (replicateOkEnv.closeResult 5 9 = none →
      (handleReplicate replicateOkEnv).reply = .text "OK" ∧
      (handleReplicate replicateOkEnv).closeCalled = some (5, 9) ∧
      (handleReplicate replicateOkEnv).committed = true ∧
      (handleReplicate replicateOkEnv).deleted = false ∧
      (handleReplicate replicateOkEnv).segmentsInc = 1 ∧
      (handleReplicate replicateOkEnv).bytesInc = 3) ∧
    (∀ e, replicateOkEnv.closeResult 5 9 = some e →
      (handleReplicate replicateOkEnv).reply = .httpError 500 e ∧
      (handleReplicate replicateOkEnv).closeCalled = some (5, 9) ∧
      (handleReplicate replicateOkEnv).committed = false ∧
      (handleReplicate replicateOkEnv).deleted = false ∧
      (handleReplicate replicateOkEnv).segmentsInc = 0 ∧
      (handleReplicate replicateOkEnv).bytesInc = 0) :=
  replicate_success_path replicateOkEnv 5 9 3 rfl rfl (by decide)

/-! ## Claim theorems: user-facing scatter-gather query -/

/-- C3: empty-directory rejection: with an empty store-peer snapshot,
`handleUserQuery` responds 503 Service Unavailable and dispatches zero
internal peer requests. -/
theorem userQuery_empty_directory_rejection (env : UserQueryEnv)
    (hmembers : env.members = []) :
    (handleUserQuery env).reply = .httpError 503 "no store nodes available" ∧
    (handleUserQuery env).dispatched = 0 := by
  simp [handleUserQuery, hmembers]

/-- Witness for C3: the concrete empty-directory environment. -/
theorem userQuery_empty_directory_rejection_witness :
    (handleUserQuery emptyDirectoryEnv).reply
      = .httpError 503 "no store nodes available" ∧
    (handleUserQuery emptyDirectoryEnv).dispatched = 0 :=
  userQuery_empty_directory_rejection emptyDirectoryEnv rfl

/-- C10: on the user-facing query path the peer-availability check precedes
parameter validation: with an empty snapshot the handler responds 503 even
when `MakeQueryParams` would fail, and the 400 Bad Request branch is
unreachable. -/
theorem userQuery_availability_check_precedes_validation (env : UserQueryEnv)
    (e : String)
    (hmembers : env.members = [])
    (hparams : env.paramsResult = .error e) :
    (handleUserQuery env).reply = .httpError 503 "no store nodes available" ∧
    ∀ msg, (handleUserQuery env).reply ≠ .httpError 400 msg := by
  refine ⟨by simp [handleUserQuery, hmembers], ?_⟩
  intro msg
  simp [handleUserQuery, hmembers]

/-- Witness for C10: the concrete empty-directory environment, whose query
parameters are malformed. -/
theorem userQuery_availability_check_precedes_validation_witness :
    (handleUserQuery emptyDirectoryEnv).reply
      = .httpError 503 "no store nodes available" ∧
    ∀ msg, (handleUserQuery emptyDirectoryEnv).reply ≠ .httpError 400 msg :=
  userQuery_availability_check_precedes_validation emptyDirectoryEnv
    "parsing from: bad time" rfl rfl

/-- C2: scatter-gather completeness under partial failure: with a nonempty
snapshot, valid params, all requests built, and every successful partial
result compatible with the query (same params, zero own error count — values
an internal query executor produces), the handler returns a merged result
whose `ErrorCount` equals the number of failed outcomes and whose matched
total is the sum over the successful partial results; no individual peer
failure aborts the operation. -/
theorem userQuery_scatter_gather_completeness (env : UserQueryEnv)
    (query : QueryParams)
    (hmembers : env.members ≠ [])
    (hparams : env.paramsResult = .ok query)
    (hbuild : ∀ m ∈ env.members, env.buildErr m = none)
    (hlen : env.outcomes.length = env.members.length)
    (hcompat : ∀ r ∈ env.outcomes.filterMap PeerOutcome.successResult,
        r.params = query ∧ r.errorCount = 0) :
    ∃ result, (handleUserQuery env).reply = .queryResult result ∧
      (handleUserQuery env).dispatched = env.members.length ∧
      result.errorCount = (env.outcomes.filter PeerOutcome.isFailure).length ∧
      result.recordsMatched =
        ((env.outcomes.filterMap PeerOutcome.successResult).map
          QueryResult.recordsMatched).sum := by
  have hfind : env.members.find? (fun m => (env.buildErr m).isSome) = none := by
    rw [List.find?_eq_none]
    intro m hm
    simp [hbuild m hm]
  have hsum0 : ((env.outcomes.filterMap PeerOutcome.successResult).map
      QueryResult.errorCount).sum = 0 := by
    apply List.sum_eq_zero
    intro x hx
    rcases List.mem_map.mp hx with ⟨r, hr, hxr⟩
    rw [← hxr]
    exact (hcompat r hr).2
  have hgather := gather_ok_of_compat query env.outcomes
    { params := query, errorCount := 0, recordsMatched := 0 } rfl
    (fun r hr => (hcompat r hr).1)
  have hgather2 : gather { params := query, errorCount := 0, recordsMatched := 0 }
      env.outcomes = .ok
      { params := query
        errorCount := (env.outcomes.filter PeerOutcome.isFailure).length
        recordsMatched := ((env.outcomes.filterMap PeerOutcome.successResult).map
          QueryResult.recordsMatched).sum } := by
    rw [hgather]
    simp [hsum0]
  have hlen0 : ¬ env.members.length ≤ 0 := by
    simp only [Nat.le_zero, List.length_eq_zero]
    exact hmembers
  have hmain : handleUserQuery env =
      { reply := .queryResult
          { params := query
            errorCount := (env.outcomes.filter PeerOutcome.isFailure).length
            recordsMatched := ((env.outcomes.filterMap PeerOutcome.successResult).map
              QueryResult.recordsMatched).sum }
        dispatched := env.members.length } := by
    simp only [handleUserQuery, if_neg hlen0, hparams, hfind, hgather2]
  exact ⟨_, by rw [hmain], by rw [hmain], rfl, rfl⟩

/-- Witness for C2: three peers, of which one suffers a transport error and
one answers 503, while the third answers 200 with 7 matched records: the
aggregate has error count 2 and matched total 7. -/
theorem userQuery_scatter_gather_completeness_witness :
    ∃ result, (handleUserQuery sampleGatherEnv).reply = .queryResult result ∧
      (handleUserQuery sampleGatherEnv).dispatched
        = sampleGatherEnv.members.length ∧
      result.errorCount
        = (sampleGatherEnv.outcomes.filter PeerOutcome.isFailure).length ∧
      result.recordsMatched =
        ((sampleGatherEnv.outcomes.filterMap PeerOutcome.successResult).map
          QueryResult.recordsMatched).sum :=
  userQuery_scatter_gather_completeness sampleGatherEnv { q := "error" }
    (by decide) rfl (fun m _ => rfl) rfl
    (by
      intro r hr
      have hr7 : r = sampleResult 7 := by
        simpa [sampleGatherEnv, PeerOutcome.successResult] using hr
      subst hr7
      exact ⟨rfl, rfl⟩)

/-- C6: merge failure is the one fatal gather path: when a successfully
decoded partial result is structurally incompatible with the aggregate
(mismatched params), `handleUserQuery` aborts with an internal-server error
(500) instead of returning a merged result. -/
theorem userQuery_merge_failure_fatal (env : UserQueryEnv)
    (query : QueryParams) (bad : QueryResult)
    (hmembers : env.members ≠ [])
    (hparams : env.paramsResult = .ok query)
    (hbuild : ∀ m ∈ env.members, env.buildErr m = none)
    (hbad : bad ∈ env.outcomes.filterMap PeerOutcome.successResult)
    (hne : bad.params ≠ query) :
    (∃ msg, (handleUserQuery env).reply = .httpError 500 msg) ∧
    ∀ result, (handleUserQuery env).reply ≠ .queryResult result := by
  have hfind : env.members.find? (fun m => (env.buildErr m).isSome) = none := by
    rw [List.find?_eq_none]
    intro m hm
    simp [hbuild m hm]
  have hlen0 : ¬ env.members.length ≤ 0 := by
    simp only [Nat.le_zero, List.length_eq_zero]
    exact hmembers
  obtain ⟨e, he⟩ := gather_error_of_incompat query env.outcomes
    { params := query, errorCount := 0, recordsMatched := 0 } rfl ⟨bad, hbad, hne⟩
  constructor
  · refine ⟨"merging results: " ++ e, ?_⟩
    simp only [handleUserQuery, if_neg hlen0, hparams, hfind, he]
  · intro result
    simp only [handleUserQuery, if_neg hlen0, hparams, hfind, he]
    simp

/-- Witness for C6: one peer whose successful partial result carries params
different from the client's. -/
theorem userQuery_merge_failure_fatal_witness :
    (∃ msg, (handleUserQuery incompatGatherEnv).reply = .httpError 500 msg) ∧
    ∀ result, (handleUserQuery incompatGatherEnv).reply ≠ .queryResult result :=
  userQuery_merge_failure_fatal incompatGatherEnv { q := "error" }
    { params := { q := "other" }, errorCount := 0, recordsMatched := 1 }
    (by decide) rfl (fun m _ => rfl) (by decide) (by decide)

/-! ## Claim theorems: stream handlers and the flusher assertion -/

/-- C4 (code defect): through `ServeHTTP` the stream handlers receive the
writer wrapped in `interceptingWriter`, whose Go method set lacks `Flush`
(embedding the `http.ResponseWriter` interface promotes only that
interface's methods), so the `http.Flusher` type assertion fails and both
stream routes respond 412 even when the underlying writer supports flushing
and the query parameters are valid — the spec reserves 412 for responses
that truly cannot be streamed. -/
theorem stream_412_despite_flushable_writer (env : ServeEnv)
    (w : ResponseWriter) (qu qi : QueryParams)
    (hw : w.supportsFlusher = true)
    (hu : env.userStream.paramsResult = .ok qu)
    (hi : env.internalStream.paramsResult = .ok qi) :
    (serveHTTP env w { method := "GET", path := APIPathUserStream }).reply
      = .httpError 412 "can't stream to your client" ∧
    (serveHTTP env w { method := "GET", path := APIPathInternalStream }).reply
      = .httpError 412 "can't stream to your client" := by
  constructor <;>
    simp [serveHTTP, routeRequest, handleUserStream, handleInternalStream,
      interceptingWriterWrap, hu, hi, APIPathUserQuery, APIPathInternalQuery,
      APIPathUserStream, APIPathInternalStream, APIPathReplicate,
      APIPathClusterState]

/-- Witness for C4's defect theorem: a concrete flush-capable writer and the
sample environment, whose stream parameters are valid. -/
theorem stream_412_despite_flushable_writer_witness :
    (serveHTTP sampleServeEnv { supportsFlusher := true }
      { method := "GET", path := APIPathUserStream }).reply
      = .httpError 412 "can't stream to your client" ∧
    (serveHTTP sampleServeEnv { supportsFlusher := true }
      { method := "GET", path := APIPathInternalStream }).reply
      = .httpError 412 "can't stream to your client" :=
  stream_412_despite_flushable_writer sampleServeEnv
    { supportsFlusher := true } { q := "error" } { q := "error" } rfl rfl rfl

/-! ## Claim theorems: fan-out URL construction -/

/-- Inside the values written by the spec-modelled encoder, the "q" binding
appended at the end is the one the decoder finds: the preceding entries were
filtered to exclude the key. -/
theorem find_q_encodeTo (query : QueryParams) (values : List (String × String)) :
    (EncodeTo query values).find? (fun p => p.1 == "q") = some ("q", query.q) := by
  unfold EncodeTo
  induction values with
  | nil => simp
  | cons v vs ih =>
      by_cases h : v.1 = "q"
      · simpa [List.filter_cons, h] using ih
      · have hkeep : (v.1 != "q") = true := by simp [h]
        simp only [List.filter_cons, hkeep, if_true, List.cons_append]
        rw [List.find?_cons_of_neg _ (by simp [h])]
        exact ih

/-- The spec-modelled encoder and decoder satisfy the round-trip law of spec
section 8: decoding the URL-encoding of any params yields those params. -/
theorem makeQueryParams_encodeTo_roundTrip (query : QueryParams)
    (values : List (String × String)) :
    MakeQueryParamsOf (EncodeTo query values) = query := by
  unfold MakeQueryParamsOf
  rw [find_q_encodeTo]
  rfl

/-- C5 (code defect): the fan-out URL builder, evaluated at a concrete
nonempty query, drops the parameters: `EncodeTo` mutated only the discarded
copy returned by `u.Query()`, so the built URL carries an empty raw query,
and the receiving peer decodes the default params instead of the client's —
even though the encode→decode pair itself round-trips. -/
theorem internal_url_drops_params :
    (buildInternalURL "10.0.0.1:7650" APIPathInternalQuery
      { q := "error" }).rawQuery = "" ∧
    (buildInternalURL "10.0.0.1:7650" APIPathInternalQuery
      { q := "error" }).render = "http://10.0.0.1:7650/store/_query" ∧
    MakeQueryParamsOf ((buildInternalURL "10.0.0.1:7650" APIPathInternalQuery
      { q := "error" }).queryValues) ≠ { q := "error" } ∧
    MakeQueryParamsOf (EncodeTo { q := "error" } []) = { q := "error" } := by
  refine ⟨rfl, by decide, by decide, by decide⟩

/-! ## Claim theorems: the latency observation -/

/-- The second component `routeRequest` returns — the value of `r.URL.Path`
after the switch — equals the request path except for the root redirect. -/
theorem routeRequest_path (env : ServeEnv) (w : ResponseWriter) (r : Request) :
    (routeRequest env w r).2 = observedPath r := by
  unfold routeRequest observedPath
  split_ifs <;> rfl

/-- C9 counterexample: for the request `GET /`, the single duration
observation is labeled with path "/query" — the redirect case rewrites
`r.URL.Path` (api.go:77) before the deferred observation reads it — which
differs from the request's own path "/". -/
theorem latency_label_root_redirect_counterexample :
    (serveHTTP sampleServeEnv { supportsFlusher := true }
      { method := "GET", path := "/" }).observations
      = [("GET", "/query", 307)] ∧
    ("/query" : String) ≠ "/" := by
  refine ⟨rfl, by decide⟩

/-- C9 (amended): every request handled by `ServeHTTP`, on every route,
produces exactly one duration observation, labeled with the request method,
the request path as read at observation time — equal to the request's path on
every route except `GET /`, which the redirect rewrites to "/query" before
the observation — and the final response status captured by the intercepting
writer (which stays at its default 200 when no handler wrote an explicit
header). -/
theorem latency_observation_exactly_once (env : ServeEnv)
    (w : ResponseWriter) (r : Request) :
    (serveHTTP env w r).observations
      = [(r.method, observedPath r, ((serveHTTP env w r).reply).status)] := by
  simp only [serveHTTP]
  rw [routeRequest_path]

end OkLogStore
